import Mathlib

/-!
Verification of the tide-widget (`src/index.tsx`): a shallow embedding of the
`fetchTideData` transform, the response handling, and the `App` component's
state machine, together with theorems about the specified properties.

JavaScript numbers are modelled as `Option ℚ`: `none` stands for NaN, `some q`
for a finite value.  The only numeric operations the program performs on
prediction values are `parseFloat` and multiplication by `-1`, both of which
are exact on the decimal strings the upstream service produces, so exact
rationals are a faithful stand-in for IEEE doubles here.
-/

/-- JavaScript number: `none` is NaN, `some q` a finite value. -/
abbrev JSNum := Option ℚ

/-- Model of JavaScript unary negation (`x * -1`): NaN stays NaN. -/
def jsNeg : JSNum → JSNum
  | none => none
  | some q => some (-q)

/-- Collect a maximal leading run of decimal digits, returning their values
and the remaining characters. -/
def takeDigits : List Char → List ℕ × List Char
  | [] => ([], [])
  | c :: cs =>
    if c.isDigit then
      ((c.toNat - 48) :: (takeDigits cs).1, (takeDigits cs).2)
    else ([], c :: cs)

/-- Value of a most-significant-first digit list. -/
def digitsToNat (ds : List ℕ) : ℕ := ds.foldl (fun a d => 10 * a + d) 0

/-- Model of the JavaScript `parseFloat` builtin on the shapes of string this
program can receive: an optional sign followed by a decimal number
(`digits`, `digits.digits`, `.digits` or `digits.`), converted exactly; any
trailing garbage is ignored, and a string with no parseable prefix yields NaN
(`none`).  Exponents, `Infinity` and leading whitespace are outside the model:
the upstream service never produces them and the claims never mention them. -/
def parseFloat (s : String) : JSNum :=
  match s.toList with
  | '-' :: rest => (parseFloatBody rest).map (fun q => -q)
  | '+' :: rest => parseFloatBody rest
  | cs => parseFloatBody cs
where
  parseFloatBody (cs : List Char) : Option ℚ :=
    let ip := takeDigits cs
    match ip.2 with
    | '.' :: cs3 =>
      let fp := takeDigits cs3
      if ip.1.isEmpty ∧ fp.1.isEmpty then none
      else some ((digitsToNat ip.1 : ℚ) +
        (digitsToNat fp.1 : ℚ) / (10 : ℚ) ^ fp.1.length)
    | _ =>
      if ip.1.isEmpty then none
      else some (digitsToNat ip.1 : ℚ)

/-- Model of `new Date(s).getHours()` for the timestamp format the upstream
service returns (`"YYYY-MM-DD HH:MM"`, local time): the local hour is the
two-digit field at positions 11 and 12.  A string without digits there is an
invalid Date, whose `getHours()` is NaN, modelled as `none`. -/
def dateGetHours (s : String) : Option ℕ :=
  match s.toList.drop 11 with
  | h1 :: h2 :: _ =>
    if h1.isDigit ∧ h2.isDigit then
      some ((h1.toNat - 48) * 10 + (h2.toNat - 48))
    else none
  | _ => none

/-- One upstream prediction record: a timestamp string `t` and a
string-encoded water-level value `v`. -/
structure RawPrediction where
  t : String
  v : String
deriving DecidableEq, Repr

/-- The `error` object an upstream response may carry; its `message` field may
itself be absent. -/
structure ErrObj where
  message : Option String
deriving DecidableEq, Repr

/-- The parsed JSON envelope of an upstream response: an optional `error`
object and an optional `predictions` array. -/
structure NOAAResponse where
  error : Option ErrObj
  predictions : Option (List RawPrediction)
deriving DecidableEq, Repr

/-- One chart.js dataset as built by `fetchTideData`. -/
structure Dataset where
  data : List JSNum
  borderColor : String
  backgroundColor : String
  fill : String
deriving DecidableEq, Repr

/-- The chart.js payload passed to `setChartData`. -/
structure ChartData where
  labels : List String
  datasets : List Dataset
deriving DecidableEq, Repr

/-- The five candidate tick indices computed at lines 108–114:
`[0, ⌊(n-1)/4⌋, ⌊2(n-1)/4⌋, ⌊3(n-1)/4⌋, n-1]` (ℕ division is the floor). -/
def tickIndices (n : ℕ) : List ℕ :=
  [0, (n - 1) / 4, 2 * (n - 1) / 4, 3 * (n - 1) / 4, n - 1]

/-- Model of `new Set(indices)` iteration: deduplicate keeping the first
occurrence of each element, in insertion order.  `seen` accumulates the
elements already emitted. -/
def setDedupAux : List ℕ → List ℕ → List ℕ
  | [], _ => []
  | x :: xs, seen =>
    if x ∈ seen then setDedupAux xs seen
    else x :: setDedupAux xs (x :: seen)

/-- `new Set(l)` in iteration order. -/
def setDedup (l : List ℕ) : List ℕ := setDedupAux l []

/-- The glyph and colour a selected tick receives (lines 119–126): DAY
(hour ∈ [6,18)) gets the sun and the warm colour `#FFA500`, otherwise the moon
and the cool colour `#ADD8E6`.  A NaN hour compares false, so an invalid
timestamp falls to the NIGHT branch. -/
def tickGlyphColor (hour : Option ℕ) : String × String :=
  match hour with
  | some h => if 6 ≤ h ∧ h < 18 then ("☀️", "#FFA500") else ("🌙", "#ADD8E6")
  | none => ("🌙", "#ADD8E6")

/-- The `Set.forEach` loop (lines 116–127): for each selected index, overwrite
that slot of the labels and colours arrays with the glyph and colour for the
local hour of its prediction's timestamp. -/
def applyTicks (preds : List RawPrediction) (idxs : List ℕ)
    (labels colors : List String) : List String × List String :=
  idxs.foldl
    (fun lc i =>
      match preds[i]? with
      | some p =>
        (lc.1.set i (tickGlyphColor (dateGetHours p.t)).1,
         lc.2.set i (tickGlyphColor (dateGetHours p.t)).2)
      | none => lc)
    (labels, colors)

/-- The negated series (line 103): `predictions.map(p => parseFloat(p.v) * -1)`. -/
def seriesOf (preds : List RawPrediction) : List JSNum :=
  preds.map (fun p => jsNeg (parseFloat p.v))

/-- The pure transform of lines 101–147: from the prediction list to the chart
payload handed to `setChartData` and the colour array handed to
`setTickColors`. -/
def transform (preds : List RawPrediction) : ChartData × List String :=
  let n := preds.length
  let values := seriesOf preds
  let labels0 := List.replicate n ""
  let colors0 := List.replicate n "transparent"
  let lc :=
    if 0 < n then applyTicks preds (setDedup (tickIndices n)) labels0 colors0
    else (labels0, colors0)
  ({ labels := lc.1,
     datasets :=
      [{ data := values, borderColor := "transparent",
         backgroundColor := "#E1C699", fill := "start" },
       { data := values, borderColor := "transparent",
         backgroundColor := "#87CEEB", fill := "end" }] },
   lc.2)

/-- The message of the `Error` thrown at line 98:
`data.error?.message || 'Invalid data from NOAA API'`.  JavaScript's `||`
treats the empty string and `undefined` as falsy, so an absent or empty
upstream message is replaced by the fallback. -/
def errMsgOf (data : NOAAResponse) : String :=
  match data.error with
  | some e =>
    match e.message with
    | some m => if m = "" then "Invalid data from NOAA API" else m
    | none => "Invalid data from NOAA API"
  | none => "Invalid data from NOAA API"

/-- The envelope check and transform of lines 97–147, as a pure function from
the parsed response to either the thrown error's message or the chart payload
and tick colours. -/
def fetchOutcome (data : NOAAResponse) : Except String (ChartData × List String) :=
  if data.error.isSome ∨ data.predictions.isNone ∨
      (data.predictions.getD []).length = 0 then
    .error (errMsgOf data)
  else
    .ok (transform (data.predictions.getD []))

/-- The fields `fetchTideData` reads from the `Date` it constructs at line 84:
`getFullYear`, `getMonth` (0-based), `getDate`, `getHours`, `getMinutes`. -/
structure JSDate where
  fullYear : ℕ
  month : ℕ
  date : ℕ
  hours : ℕ
  minutes : ℕ
deriving DecidableEq, Repr

/-- Model of `String.prototype.padStart(n, c)`. -/
def padStart (s : String) (n : ℕ) (c : Char) : String :=
  if s.length < n then String.mk (List.replicate (n - s.length) c) ++ s else s

/-- The `begin_date` template literal of line 85:
year, zero-padded month+1, zero-padded day, a space, zero-padded hours, a
colon, zero-padded minutes. -/
def beginDateOf (now : JSDate) : String :=
  toString now.fullYear ++ padStart (toString (now.month + 1)) 2 '0' ++
    padStart (toString now.date) 2 '0' ++ " " ++
    padStart (toString now.hours) 2 '0' ++ ":" ++
    padStart (toString now.minutes) 2 '0'

/-- The query parameters of the upstream URL built at line 87.  Each fetch
invocation constructs this from the `Date` it reads at that moment. -/
structure RequestDescriptor where
  begin_date : String
  range : String
  station : String
  product : String
  datum : String
  units : String
  time_zone : String
  format : String
  application : String
deriving DecidableEq, Repr

/-- The request descriptor a `fetchTideData` invocation builds from the clock
value `now` it reads on entry (lines 79–87). -/
def buildRequest (now : JSDate) : RequestDescriptor :=
  { begin_date := beginDateOf now
    range := "5"
    station := "9411340"
    product := "predictions"
    datum := "MLLW"
    units := "english"
    time_zone := "lst_ldt"
    format := "json"
    application := "tide-chart-app" }

/-- The `App` component's state: the four `useState` hooks
(`chartData`, `loading`, `error`, `tickColors`). -/
structure AppState where
  chartData : Option ChartData
  loading : Bool
  error : Bool
  tickColors : List String
deriving DecidableEq, Repr

/-- The initial hook values (lines 27–30): no chart, loading, no error, no
tick colours.  The mount effect fires `fetchTideData` at once, so this state
already has a fetch in flight. -/
def initialState : AppState :=
  { chartData := none, loading := true, error := false, tickColors := [] }

/-- What `fetchTideData` does synchronously on entry (lines 80–82):
`setLoading(true); setError(false); setChartData(null)`. -/
def fetchStart (s : AppState) : AppState :=
  { s with loading := true, error := false, chartData := none }

/-- What the awaited fetch can resolve to, as seen by the `try` block: a
transport failure, a non-ok HTTP status or an unparseable JSON body (all of
which throw before line 97), or a parsed response envelope. -/
inductive FetchResult where
  | networkError
  | response (data : NOAAResponse)

/-- What `fetchTideData` does when the awaited fetch resolves: on any throw,
the `catch` block logs the error and sets the error flag; on success,
lines 130–147 store the tick colours and chart payload.  Either way the
`finally` block clears `loading`.  The second component is the message passed
to `console.error`, the diagnostic log. -/
def fetchComplete (s : AppState) (r : FetchResult) : AppState × Option String :=
  match r with
  | .networkError =>
    ({ s with error := true, loading := false },
     some "Network response was not ok")
  | .response data =>
    match fetchOutcome data with
    | .error msg => ({ s with error := true, loading := false }, some msg)
    | .ok out =>
      ({ s with tickColors := out.2, chartData := some out.1, loading := false },
       none)

/-- Whether the refresh button is in the rendered tree: line 167 guards the
chart section and the button with `chartData && ...`. -/
def showsRefreshButton (s : AppState) : Bool := s.chartData.isSome

/-- Whether a click on the refresh control does anything: the button must be
rendered (line 167) and not disabled (line 177, `disabled={loading}`). -/
def refreshEnabled (s : AppState) : Bool := s.chartData.isSome && !s.loading

/-- The events that drive the component: a click on an enabled refresh control
starts a new fetch, and an in-flight fetch (the `loading` flag) can resolve
with any result. -/
inductive Step : AppState → AppState → Prop where
  | refresh (s : AppState) (h : refreshEnabled s = true) : Step s (fetchStart s)
  | complete (s : AppState) (r : FetchResult) (h : s.loading = true) :
      Step s (fetchComplete s r).1

/-- States the component can be in: the mount state, plus anything the events
produce. -/
inductive Reachable : AppState → Prop where
  | init : Reachable initialState
  | step {s s' : AppState} : Reachable s → Step s s' → Reachable s'

/-! ### Helper lemmas -/

set_option maxRecDepth 4000 in
/-- A natural below 100, rendered and padded to width 2, has exactly 2 characters. -/
theorem pad2_len : ∀ n : ℕ, n < 100 → (padStart (toString n) 2 '0').length = 2 := by decide

set_option maxRecDepth 4000 in
/-- A natural below 100, rendered and padded to width 2, is all digits. -/
theorem pad2_digits : ∀ n : ℕ, n < 100 →
    ∀ c ∈ (padStart (toString n) 2 '0').toList, c.isDigit := by decide

set_option maxRecDepth 10000 in
/-- Width-2 zero-padded rendering is injective below 60 (minute/second range). -/
theorem pad2_inj : ∀ a : ℕ, a < 60 → ∀ b : ℕ, b < 60 →
    padStart (toString a) 2 '0' = padStart (toString b) 2 '0' → a = b := by decide

/-- `Nat.digitChar` of a decimal digit is a digit character. -/
theorem digitChar_isDigit : ∀ m : ℕ, m < 10 → (Nat.digitChar m).isDigit := by decide

/-- All characters `Nat.toDigitsCore` emits in base 10 are digits. -/
theorem toDigitsCore_isDigit (f : ℕ) : ∀ (n : ℕ) (ds : List Char),
    (∀ c ∈ ds, c.isDigit) → ∀ c ∈ Nat.toDigitsCore 10 f n ds, c.isDigit := by
  induction f with
  | zero => intro n ds hds; simpa [Nat.toDigitsCore] using hds
  | succ f ih =>
    intro n ds hds c hc
    simp only [Nat.toDigitsCore] at hc
    by_cases h0 : n / 10 = 0
    · rw [if_pos h0] at hc
      rcases List.mem_cons.mp hc with rfl | hmem
      · exact digitChar_isDigit _ (Nat.mod_lt _ (by norm_num))
      · exact hds _ hmem
    · rw [if_neg h0] at hc
      refine ih (n / 10) (Nat.digitChar (n % 10) :: ds) ?_ c hc
      intro c' hc'
      rcases List.mem_cons.mp hc' with rfl | hmem
      · exact digitChar_isDigit _ (Nat.mod_lt _ (by norm_num))
      · exact hds _ hmem

/-- With enough fuel, `Nat.toDigitsCore` in base 10 emits `log₁₀ n + 1` characters. -/
theorem toDigitsCore_len (f : ℕ) : ∀ n : ℕ, n < f →
    (Nat.toDigitsCore 10 f n []).length = Nat.log 10 n + 1 := by
  induction f with
  | zero => intro n h; omega
  | succ f ih =>
    intro n hn
    simp only [Nat.toDigitsCore]
    by_cases h0 : n / 10 = 0
    · rw [if_pos h0]
      have : n < 10 := by omega
      simp [Nat.log_eq_zero_iff, this]
    · rw [if_neg h0]
      have h10 : 10 ≤ n := by
        by_contra h
        exact h0 (Nat.div_eq_of_lt (by omega))
      have hdiv : n / 10 < f := by
        have := Nat.div_lt_self (by omega : 0 < n) (by norm_num : 1 < 10)
        omega
      rw [Nat.toDigitsCore_lens_eq, ih (n / 10) hdiv]
      have hlog : Nat.log 10 (n / 10) = Nat.log 10 n - 1 := Nat.log_div_base 10 n
      have hpos : 0 < Nat.log 10 n := Nat.log_pos (by norm_num) h10
      omega

/-- A four-digit year renders as exactly 4 characters. -/
theorem repr_len4 (y : ℕ) (h1 : 1000 ≤ y) (h2 : y ≤ 9999) : (toString y).length = 4 := by
  have : (Nat.toDigitsCore 10 (y + 1) y []).length = Nat.log 10 y + 1 :=
    toDigitsCore_len (y + 1) y (Nat.lt_succ_self y)
  have hlog : Nat.log 10 y = 3 :=
    Nat.log_eq_of_pow_le_of_lt_pow (by norm_num; omega) (by norm_num; omega)
  simp only [toString, Nat.repr, Nat.toDigits, String.length, List.asString] at *
  omega

/-- A rendered natural is all digit characters. -/
theorem repr_digits (y : ℕ) : ∀ c ∈ (toString y).toList, c.isDigit := by
  have h := toDigitsCore_isDigit (y + 1) y [] (by intro c hc; cases hc)
  simpa [toString, Nat.repr, Nat.toDigits, String.toList, List.asString] using h

/-- Membership in the `Set` model: first-occurrence dedup keeps exactly the
elements of the input not already seen. -/
theorem setDedupAux_mem (l : List ℕ) :
    ∀ (seen : List ℕ) (x : ℕ), x ∈ setDedupAux l seen ↔ x ∈ l ∧ x ∉ seen := by
  induction l with
  | nil => intro seen x; simp [setDedupAux]
  | cons a l ih =>
    intro seen x
    by_cases ha : a ∈ seen
    · rw [setDedupAux, if_pos ha, ih]
      simp only [List.mem_cons]
      constructor
      · exact fun h => ⟨Or.inr h.1, h.2⟩
      · rintro ⟨h | h, hns⟩
        · exact absurd (h ▸ ha) hns
        · exact ⟨h, hns⟩
    · rw [setDedupAux, if_neg ha]
      simp only [List.mem_cons, ih]
      constructor
      · rintro (rfl | ⟨hx, hns⟩)
        · exact ⟨Or.inl rfl, ha⟩
        · exact ⟨Or.inr hx, fun hs => hns (Or.inr hs)⟩
      · rintro ⟨rfl | hx, hns⟩
        · exact Or.inl rfl
        · by_cases hxa : x = a
          · exact Or.inl hxa
          · exact Or.inr ⟨hx, fun hs => hs.elim hxa hns⟩

/-- The `Set` model never emits an element twice. -/
theorem setDedupAux_nodup (l : List ℕ) : ∀ seen : List ℕ, (setDedupAux l seen).Nodup := by
  induction l with
  | nil => intro seen; simp [setDedupAux]
  | cons a l ih =>
    intro seen
    by_cases ha : a ∈ seen
    · rw [setDedupAux, if_pos ha]; exact ih seen
    · rw [setDedupAux, if_neg ha]
      refine List.nodup_cons.mpr ⟨fun hmem => ?_, ih _⟩
      exact ((setDedupAux_mem l _ a).mp hmem).2 (List.mem_cons_self a seen)

/-- The `Set` model emits at most as many elements as it receives. -/
theorem setDedupAux_length (l : List ℕ) :
    ∀ seen : List ℕ, (setDedupAux l seen).length ≤ l.length := by
  induction l with
  | nil => intro seen; simp [setDedupAux]
  | cons a l ih =>
    intro seen
    by_cases ha : a ∈ seen
    · rw [setDedupAux, if_pos ha]
      exact le_trans (ih seen) (Nat.le_succ _)
    · rw [setDedupAux, if_neg ha, List.length_cons]
      exact Nat.succ_le_succ (ih _)

/-- `setDedup` preserves the underlying set of elements. -/
theorem setDedup_mem (l : List ℕ) (x : ℕ) : x ∈ setDedup l ↔ x ∈ l := by
  rw [setDedup, setDedupAux_mem]
  simp

/-- `setDedup` output has no duplicates. -/
theorem setDedup_nodup (l : List ℕ) : (setDedup l).Nodup := setDedupAux_nodup l []

/-- `setDedup` output is no longer than its input. -/
theorem setDedup_length (l : List ℕ) : (setDedup l).length ≤ l.length :=
  setDedupAux_length l []

/-- The code's five candidate indices are exactly `⌊k(n-1)/4⌋` for `k = 0..4`. -/
theorem tickIndices_eq_quartiles (n : ℕ) :
    tickIndices n = (List.range 5).map (fun k => k * (n - 1) / 4) := by
  have h5 : List.range 5 = [0, 1, 2, 3, 4] := by decide
  rw [h5]
  simp only [List.map_cons, List.map_nil, tickIndices]
  norm_num

/-- Every candidate index is at most `n - 1`. -/
theorem mem_tickIndices_le (n i : ℕ) (h : i ∈ tickIndices n) : i ≤ n - 1 := by
  simp only [tickIndices, List.mem_cons, List.not_mem_nil, or_false] at h
  rcases h with rfl | rfl | rfl | rfl | rfl <;> omega

/-- Unfolding one step of the `Set.forEach` loop. -/
theorem applyTicks_cons (preds : List RawPrediction) (i : ℕ) (idxs : List ℕ)
    (labels colors : List String) :
    applyTicks preds (i :: idxs) labels colors =
      match preds[i]? with
      | some p =>
        applyTicks preds idxs
          (labels.set i (tickGlyphColor (dateGetHours p.t)).1)
          (colors.set i (tickGlyphColor (dateGetHours p.t)).2)
      | none => applyTicks preds idxs labels colors := by
  simp only [applyTicks, List.foldl_cons]
  cases preds[i]? <;> rfl

/-- The `forEach` loop never changes the lengths of the two arrays. -/
theorem applyTicks_length (preds : List RawPrediction) (idxs : List ℕ) :
    ∀ labels colors : List String,
      (applyTicks preds idxs labels colors).1.length = labels.length ∧
      (applyTicks preds idxs labels colors).2.length = colors.length := by
  induction idxs with
  | nil => intro labels colors; exact ⟨rfl, rfl⟩
  | cons i idxs ih =>
    intro labels colors
    rw [applyTicks_cons]
    cases preds[i]? with
    | none => exact ih labels colors
    | some p =>
      rcases ih (labels.set i (tickGlyphColor (dateGetHours p.t)).1)
        (colors.set i (tickGlyphColor (dateGetHours p.t)).2) with ⟨h1, h2⟩
      rw [h1, h2, List.length_set, List.length_set]
      exact ⟨rfl, rfl⟩

/-- The `forEach` loop leaves slots outside the index set untouched. -/
theorem applyTicks_not_mem (preds : List RawPrediction) (idxs : List ℕ)
    (i : ℕ) (hi : i ∉ idxs) :
    ∀ labels colors : List String,
      (applyTicks preds idxs labels colors).1[i]? = labels[i]? ∧
      (applyTicks preds idxs labels colors).2[i]? = colors[i]? := by
  induction idxs with
  | nil => intro labels colors; exact ⟨rfl, rfl⟩
  | cons j idxs ih =>
    intro labels colors
    have hij : i ≠ j := fun h => hi (h ▸ List.mem_cons_self j idxs)
    have hi' : i ∉ idxs := fun h => hi (List.mem_cons_of_mem j h)
    rw [applyTicks_cons]
    cases preds[j]? with
    | none => exact ih hi' labels colors
    | some p =>
      rcases ih hi' (labels.set j (tickGlyphColor (dateGetHours p.t)).1)
        (colors.set j (tickGlyphColor (dateGetHours p.t)).2) with ⟨h1, h2⟩
      rw [h1, h2, List.getElem?_set_ne (Ne.symm hij), List.getElem?_set_ne (Ne.symm hij)]
      exact ⟨rfl, rfl⟩

/-- A slot whose index is in the (duplicate-free) index set receives exactly
the glyph and colour for its prediction's local hour. -/
theorem applyTicks_mem (preds : List RawPrediction) (idxs : List ℕ)
    (i : ℕ) (p : RawPrediction) (hnd : idxs.Nodup) (hi : i ∈ idxs)
    (hp : preds[i]? = some p) :
    ∀ labels colors : List String, i < labels.length → i < colors.length →
      (applyTicks preds idxs labels colors).1[i]? =
        some (tickGlyphColor (dateGetHours p.t)).1 ∧
      (applyTicks preds idxs labels colors).2[i]? =
        some (tickGlyphColor (dateGetHours p.t)).2 := by
  induction idxs with
  | nil => cases hi
  | cons j idxs ih =>
    intro labels colors hl hc
    rw [applyTicks_cons]
    by_cases hij : i = j
    · subst hij
      have hnotin : i ∉ idxs := (List.nodup_cons.mp hnd).1
      rw [hp]
      rcases applyTicks_not_mem preds idxs i hnotin
        (labels.set i (tickGlyphColor (dateGetHours p.t)).1)
        (colors.set i (tickGlyphColor (dateGetHours p.t)).2) with ⟨h1, h2⟩
      rw [h1, h2, List.getElem?_set_eq_of_lt _ hl, List.getElem?_set_eq_of_lt _ hc]
      exact ⟨rfl, rfl⟩
    · have hi' : i ∈ idxs := by
        rcases List.mem_cons.mp hi with h | h
        · exact absurd h hij
        · exact h
      have hnd' : idxs.Nodup := (List.nodup_cons.mp hnd).2
      cases preds[j]? with
      | none => exact ih hnd' hi' labels colors hl hc
      | some q =>
        refine ih hnd' hi' _ _ ?_ ?_
        · rw [List.length_set]; exact hl
        · rw [List.length_set]; exact hc

/-- The labels array of the transform keeps the input length. -/
theorem transform_labels_length (preds : List RawPrediction) :
    (transform preds).1.labels.length = preds.length := by
  simp only [transform]
  by_cases h : 0 < preds.length
  · rw [if_pos h]
    rw [(applyTicks_length preds _ _ _).1, List.length_replicate]
  · rw [if_neg h, List.length_replicate]

/-- The tick-colour array of the transform keeps the input length. -/
theorem transform_colors_length (preds : List RawPrediction) :
    (transform preds).2.length = preds.length := by
  simp only [transform]
  by_cases h : 0 < preds.length
  · rw [if_pos h]
    rw [(applyTicks_length preds _ _ _).2, List.length_replicate]
  · rw [if_neg h, List.length_replicate]

/-- The transform always emits exactly the two datasets of lines 133–146,
both carrying the same negated series. -/
theorem transform_datasets (preds : List RawPrediction) :
    (transform preds).1.datasets =
      [{ data := seriesOf preds, borderColor := "transparent",
         backgroundColor := "#E1C699", fill := "start" },
       { data := seriesOf preds, borderColor := "transparent",
         backgroundColor := "#87CEEB", fill := "end" }] := rfl

/-- A response with no error object, a present prediction list and at least
one prediction passes the guard of line 97 and is transformed. -/
theorem fetchOutcome_ok (d : NOAAResponse) (preds : List RawPrediction)
    (he : d.error = none) (hp : d.predictions = some preds) (hn : preds ≠ []) :
    fetchOutcome d = .ok (transform preds) := by
  have hcond : ¬(d.error.isSome = true ∨ d.predictions.isNone = true ∨
      (d.predictions.getD []).length = 0) := by
    simp [he, hp, List.length_eq_zero, hn]
  simp only [fetchOutcome]
  rw [if_neg (by simpa using hcond), hp]
  rfl

/-- Conversely, a successful outcome can only arise that way. -/
theorem fetchOutcome_ok_elim (d : NOAAResponse) (out : ChartData × List String)
    (h : fetchOutcome d = .ok out) :
    d.error = none ∧ ∃ preds, d.predictions = some preds ∧ preds ≠ [] ∧
      out = transform preds := by
  by_cases hcond : d.error.isSome = true ∨ d.predictions.isNone = true ∨
      (d.predictions.getD []).length = 0
  · rw [fetchOutcome, if_pos (by simpa using hcond)] at h
    cases h
  · push_neg at hcond
    rcases hcond with ⟨he, hp, hn⟩
    have he' : d.error = none := Option.not_isSome_iff_eq_none.mp (by simpa using he)
    cases hps : d.predictions with
    | none => rw [hps] at hp; simp at hp
    | some preds =>
      have hne : preds ≠ [] := by
        rw [hps] at hn
        simpa [List.length_eq_zero] using hn
      have hok := fetchOutcome_ok d preds he' hps hne
      rw [hok] at h
      exact ⟨he', preds, rfl, hne, (Except.ok.inj h).symm⟩

/-- State invariant: while a fetch is in flight the chart is cleared and the
error flag is down, and in an error state no chart is present. -/
theorem reachable_invariant (s : AppState) (hr : Reachable s) :
    (s.loading = true → s.chartData = none ∧ s.error = false) ∧
    (s.error = true → s.chartData = none) := by
  induction hr with
  | init => exact ⟨fun _ => ⟨rfl, rfl⟩, fun h => by cases h⟩
  | step hr hs ih =>
    cases hs with
    | refresh h => exact ⟨fun _ => ⟨rfl, rfl⟩, fun h => by cases h⟩
    | complete r h =>
      rcases (ih.1 h) with ⟨hcd, herr⟩
      cases r with
      | networkError =>
        refine ⟨fun h2 => ?_, fun _ => ?_⟩
        · cases h2
        · simp only [fetchComplete]
          exact hcd
      | response data =>
        cases hout : fetchOutcome data with
        | error msg =>
          refine ⟨fun h => ?_, fun _ => ?_⟩
          · simp only [fetchComplete, hout] at h
            cases h
          · simp only [fetchComplete, hout]
            exact hcd
        | ok out =>
          refine ⟨fun h => ?_, fun h => ?_⟩
          · simp only [fetchComplete, hout] at h
            cases h
          · simp only [fetchComplete, hout] at h ⊢
            rw [herr] at h
            cases h

/-- C1: for every prediction list of length `n ≥ 1`, the tick-index selection
computes the candidates `⌊k(n-1)/4⌋` for `k = 0..4` and deduplicates them,
yielding at most 5 distinct indices, all within `[0, n-1]`, and containing
index `0`, and index `n-1` whenever `n ≥ 2`. -/
theorem c1_tick_selection (n : ℕ) (hn : 1 ≤ n) :
    tickIndices n = (List.range 5).map (fun k => k * (n - 1) / 4) ∧
    (∀ i, i ∈ setDedup (tickIndices n) ↔ i ∈ tickIndices n) ∧
    (setDedup (tickIndices n)).Nodup ∧
    (setDedup (tickIndices n)).length ≤ 5 ∧
    (∀ i ∈ setDedup (tickIndices n), i ≤ n - 1) ∧
    (∀ i ∈ setDedup (tickIndices n), i < n) ∧
    0 ∈ setDedup (tickIndices n) ∧
    (2 ≤ n → n - 1 ∈ setDedup (tickIndices n)) := by
  refine ⟨tickIndices_eq_quartiles n, fun i => setDedup_mem _ i, setDedup_nodup _,
    le_trans (setDedup_length _) (by rw [tickIndices]; rfl), ?_, ?_, ?_, ?_⟩
  · intro i hi
    exact mem_tickIndices_le n i ((setDedup_mem _ i).mp hi)
  · intro i hi
    have := mem_tickIndices_le n i ((setDedup_mem _ i).mp hi)
    omega
  · exact (setDedup_mem _ 0).mpr (by simp [tickIndices])
  · intro _
    exact (setDedup_mem _ (n - 1)).mpr (by simp [tickIndices])

/-- C1 witness: the theorem instantiated at a 10-prediction series. -/
theorem c1_tick_selection_witness :
    (setDedup (tickIndices 10)).Nodup ∧ 0 ∈ setDedup (tickIndices 10) ∧
      9 ∈ setDedup (tickIndices 10) :=
  ⟨(c1_tick_selection 10 (by norm_num)).2.2.1,
   (c1_tick_selection 10 (by norm_num)).2.2.2.2.2.2.1,
   (c1_tick_selection 10 (by norm_num)).2.2.2.2.2.2.2 (by norm_num)⟩

/-- A response whose single prediction carries a value `parseFloat` cannot
parse. -/
def unparseableResponse : NOAAResponse :=
  { error := none,
    predictions := some [{ t := "2024-01-01 12:00", v := "abc" }] }

/-- C2 counterexample: the code never validates values.  A response whose
prediction value `"abc"` is not a parseable float still reaches the Ready
state (`.ok`), and the NaN (`none`) sample it produces is in both datasets of
the Ready-state series — so an unparseable value does contribute a sample,
contradicting the claim. -/
theorem c2_counterexample :
    parseFloat "abc" = none ∧
    fetchOutcome unparseableResponse =
      .ok ({ labels := ["☀️"],
             datasets :=
              [{ data := [none], borderColor := "transparent",
                 backgroundColor := "#E1C699", fill := "start" },
               { data := [none], borderColor := "transparent",
                 backgroundColor := "#87CEEB", fill := "end" }] },
           ["#FFA500"]) := by
  exact ⟨rfl, rfl⟩

/-- C2 amended: no validation is performed.  Any response with no error object
and a non-empty prediction list reaches Ready; each value is handed to
`parseFloat` and negated as-is, and a prediction whose value is unparseable
contributes a NaN sample to the Ready-state series. -/
theorem c2_amended (d : NOAAResponse) (preds : List RawPrediction)
    (he : d.error = none) (hp : d.predictions = some preds) (hn : preds ≠ []) :
    fetchOutcome d = .ok (transform preds) ∧
    (transform preds).1.datasets.map Dataset.data =
      [seriesOf preds, seriesOf preds] ∧
    (∀ p ∈ preds, parseFloat p.v = none → (none : JSNum) ∈ seriesOf preds) := by
  refine ⟨fetchOutcome_ok d preds he hp hn, by rw [transform_datasets]; rfl, ?_⟩
  intro p hp' hnan
  have : jsNeg (parseFloat p.v) = none := by rw [hnan]; rfl
  exact this ▸ List.mem_map_of_mem (fun p => jsNeg (parseFloat p.v)) hp'

/-- C2 amended witness: the amended theorem at the unparseable response. -/
theorem c2_amended_witness :
    fetchOutcome unparseableResponse =
      .ok (transform [{ t := "2024-01-01 12:00", v := "abc" }]) :=
  (c2_amended unparseableResponse [{ t := "2024-01-01 12:00", v := "abc" }]
    rfl rfl (by decide)).1

/-- The state reached when the mount fetch fails. -/
def failedState : AppState := (fetchComplete (fetchStart initialState) .networkError).1

/-- C3 counterexample: after a failed fetch the component is in the Error
state, yet the refresh control is not rendered (line 167 guards the button
with `chartData && ...` and `chartData` is null in the Error state), so no
manual refresh action is available from Error — contradicting the claim that
both terminal states offer one. -/
theorem c3_counterexample :
    Reachable failedState ∧ failedState.error = true ∧
    failedState.loading = false ∧ showsRefreshButton failedState = false ∧
    refreshEnabled failedState = false := by
  refine ⟨?_, rfl, rfl, rfl, rfl⟩
  exact Reachable.step Reachable.init (Step.complete initialState .networkError rfl)

/-- C3 amended: a manual refresh is available from the Ready state and
transitions back to Loading; but in any reachable Error state the refresh
control is not rendered, so after a fetch failure no event — refresh or
completion — is possible and the widget cannot be retried. -/
theorem c3_amended :
    (∀ s : AppState, s.chartData.isSome = true → s.loading = false →
       refreshEnabled s = true ∧ Step s (fetchStart s) ∧
         (fetchStart s).loading = true) ∧
    (∀ s : AppState, Reachable s → s.error = true →
       showsRefreshButton s = false ∧ refreshEnabled s = false) ∧
    (∀ s' : AppState, ¬ Step failedState s') := by
  refine ⟨?_, ?_, ?_⟩
  · intro s hcd hld
    have he : refreshEnabled s = true := by
      simp [refreshEnabled, hcd, hld]
    exact ⟨he, Step.refresh s he, rfl⟩
  · intro s hr herr
    have hcd : s.chartData = none := (reachable_invariant s hr).2 herr
    constructor
    · simp [showsRefreshButton, hcd]
    · simp [refreshEnabled, hcd]
  · intro s' hs
    cases hs with
    | refresh h => exact absurd h (by decide)
    | complete r h => exact absurd h (by decide)

/-- C3 amended witness: the amended theorem applied at the failed state and a
concrete Ready state. -/
theorem c3_amended_witness :
    ¬ Step failedState initialState :=
  c3_amended.2.2 initialState

/-- C4: the series is exactly as long as the prediction list, and the sample
at every position is the parsed float of the corresponding input value,
negated; in particular, when the value parses to `q` the sample is `-q`. -/
theorem c4_series (preds : List RawPrediction) :
    (seriesOf preds).length = preds.length ∧
    (∀ (i : ℕ) (p : RawPrediction), preds[i]? = some p →
       (seriesOf preds)[i]? = some (jsNeg (parseFloat p.v))) ∧
    (∀ (i : ℕ) (p : RawPrediction) (q : ℚ), preds[i]? = some p →
       parseFloat p.v = some q → (seriesOf preds)[i]? = some (some (-q))) := by
  refine ⟨List.length_map preds _, ?_, ?_⟩
  · intro i p hp
    simp [seriesOf, List.getElem?_map, hp]
  · intro i p q hp hq
    simp [seriesOf, List.getElem?_map, hp, hq, jsNeg]

/-- A concrete two-prediction list for witnesses. -/
def samplePreds : List RawPrediction :=
  [{ t := "2024-01-01 05:00", v := "1.5" }, { t := "2024-01-01 12:00", v := "-0.25" }]

/-- C4 witness: the theorem at a concrete list, with `"1.5"` parsed to `3/2`
and negated. -/
theorem c4_series_witness :
    (seriesOf samplePreds).length = samplePreds.length ∧
    (seriesOf samplePreds)[0]? = some (some (-(3 / 2 : ℚ))) :=
  ⟨(c4_series samplePreds).1,
   (c4_series samplePreds).2.2 0 { t := "2024-01-01 05:00", v := "1.5" } (3 / 2)
     rfl (by
       have h : parseFloat "1.5" = some ((1 : ℚ) + 5 / 10 ^ (1 : ℕ)) := rfl
       rw [h]
       norm_num)⟩

/-- C5: classification of a selected tick is a deterministic function of the
local hour of its timestamp — DAY exactly when the hour is in `[6,18)` (hours
6 and 17 are DAY; 5, 18 and 23 are NIGHT), DAY receives the warm marker
colour `#FFA500` and NIGHT the cool `#ADD8E6`; each selected index's slot
holds exactly that glyph/colour, and every non-selected index keeps the empty
label and the transparent colour. -/
theorem c5_classification :
    (∀ h : ℕ, tickGlyphColor (some h) = ("☀️", "#FFA500") ↔ (6 ≤ h ∧ h < 18)) ∧
    tickGlyphColor (dateGetHours "2024-01-01 06:00") = ("☀️", "#FFA500") ∧
    tickGlyphColor (dateGetHours "2024-01-01 17:30") = ("☀️", "#FFA500") ∧
    tickGlyphColor (dateGetHours "2024-01-01 05:59") = ("🌙", "#ADD8E6") ∧
    tickGlyphColor (dateGetHours "2024-01-01 18:00") = ("🌙", "#ADD8E6") ∧
    tickGlyphColor (dateGetHours "2024-01-01 23:00") = ("🌙", "#ADD8E6") ∧
    (∀ h : ℕ, ¬(6 ≤ h ∧ h < 18) → tickGlyphColor (some h) = ("🌙", "#ADD8E6")) ∧
    (∀ (preds : List RawPrediction) (i : ℕ) (p : RawPrediction),
       i ∈ setDedup (tickIndices preds.length) → preds[i]? = some p →
       (transform preds).1.labels[i]? =
         some (tickGlyphColor (dateGetHours p.t)).1 ∧
       (transform preds).2[i]? =
         some (tickGlyphColor (dateGetHours p.t)).2) ∧
    (∀ (preds : List RawPrediction) (i : ℕ), i < preds.length →
       i ∉ setDedup (tickIndices preds.length) →
       (transform preds).1.labels[i]? = some "" ∧
       (transform preds).2[i]? = some "transparent") := by
  refine ⟨?_, rfl, rfl, rfl, rfl, rfl, ?_, ?_, ?_⟩
  · intro h
    by_cases hd : 6 ≤ h ∧ h < 18
    · simp only [tickGlyphColor, if_pos hd]
      exact iff_of_true trivial hd
    · simp only [tickGlyphColor, if_neg hd]
      exact iff_of_false (by decide) hd
  · intro h hd
    simp only [tickGlyphColor, if_neg hd]
  · intro preds i p hi hp
    have hlt : i < preds.length := (List.getElem?_eq_some.mp hp).1
    have hn0 : 0 < preds.length := Nat.lt_of_le_of_lt (Nat.zero_le i) hlt
    simp only [transform]
    rw [if_pos hn0]
    exact applyTicks_mem preds (setDedup (tickIndices preds.length)) i p
      (setDedup_nodup _) hi hp (List.replicate preds.length "")
      (List.replicate preds.length "transparent")
      (by rw [List.length_replicate]; exact hlt)
      (by rw [List.length_replicate]; exact hlt)
  · intro preds i hlt hni
    have hn0 : 0 < preds.length := Nat.lt_of_le_of_lt (Nat.zero_le i) hlt
    simp only [transform]
    rw [if_pos hn0]
    rcases applyTicks_not_mem preds (setDedup (tickIndices preds.length)) i hni
      (List.replicate preds.length "")
      (List.replicate preds.length "transparent") with ⟨h1, h2⟩
    rw [h1, h2, List.getElem?_replicate_of_lt hlt, List.getElem?_replicate_of_lt hlt]
    exact ⟨rfl, rfl⟩

/-- C5 witness: hour 6 is classified DAY with the warm colour. -/
theorem c5_classification_witness :
    tickGlyphColor (some 6) = ("☀️", "#FFA500") :=
  (c5_classification.1 6).mpr (by norm_num)

/-- A response whose guard condition at line 97 is truthy takes the throw
path with the line-98 message. -/
theorem fetchOutcome_error (d : NOAAResponse)
    (hbad : d.error.isSome = true ∨ d.predictions = none ∨
      d.predictions = some []) :
    fetchOutcome d = .error (errMsgOf d) := by
  rw [fetchOutcome, if_pos]
  rcases hbad with h | h | h
  · exact Or.inl (by simpa using h)
  · exact Or.inr (Or.inl (by simp [h]))
  · exact Or.inr (Or.inr (by simp [h]))

/-- A response carrying an error object whose message is the empty string. -/
def emptyMessageResponse : NOAAResponse :=
  { error := some { message := some "" },
    predictions := some [{ t := "2024-01-01 00:00", v := "1" }] }

/-- C6 counterexample: for the error field `{error: {message: ""}}` the
claimed capture of the message fails — JavaScript's `||` treats the empty
string as falsy, so the diagnostic log records the fallback text, not `""`. -/
theorem c6_counterexample :
    emptyMessageResponse.error = some { message := some "" } ∧
    (fetchComplete (fetchStart initialState) (.response emptyMessageResponse)).2 =
      some "Invalid data from NOAA API" ∧
    (fetchComplete (fetchStart initialState) (.response emptyMessageResponse)).2 ≠
      some "" := by
  exact ⟨rfl, rfl, by decide⟩

/-- C6 amended: a response with an empty or missing prediction list or an
embedded error field always drives the component to the Error state — the
chart payload is untouched, hence `none` for any in-flight fetch — never to
Ready; the diagnostic log captures the embedded message whenever it is
non-empty, and records the fallback text when it is absent or empty. -/
theorem c6_amended (s : AppState) (d : NOAAResponse)
    (hbad : d.error.isSome = true ∨ d.predictions = none ∨
      d.predictions = some []) :
    (fetchComplete s (.response d)).1.error = true ∧
    (fetchComplete s (.response d)).1.loading = false ∧
    (fetchComplete s (.response d)).1.chartData = s.chartData ∧
    (Reachable s → s.loading = true →
      (fetchComplete s (.response d)).1.chartData = none) ∧
    (∀ m : String, d.error = some { message := some m } → m ≠ "" →
       (fetchComplete s (.response d)).2 = some m) ∧
    (∀ e : ErrObj, d.error = some e → (e.message = none ∨ e.message = some "") →
       (fetchComplete s (.response d)).2 = some "Invalid data from NOAA API") := by
  have herr := fetchOutcome_error d hbad
  refine ⟨?_, ?_, ?_, ?_, ?_, ?_⟩
  · simp [fetchComplete, herr]
  · simp [fetchComplete, herr]
  · simp [fetchComplete, herr]
  · intro hr hld
    simp only [fetchComplete, herr]
    exact ((reachable_invariant s hr).1 hld).1
  · intro m he hm
    simp only [fetchComplete, herr, errMsgOf, he]
    simp [hm]
  · intro e he hme
    rcases e with ⟨msg⟩
    rcases hme with hme | hme <;> subst hme <;>
      simp [fetchComplete, herr, errMsgOf, he]

/-- C6 amended witness: a non-empty upstream message is logged verbatim. -/
theorem c6_amended_witness :
    (fetchComplete initialState
      (.response { error := some { message := some "boom" },
                   predictions := none })).2 = some "boom" :=
  (c6_amended initialState
    { error := some { message := some "boom" }, predictions := none }
    (Or.inl rfl)).2.2.2.2.1 "boom" rfl (by decide)

/-- C8: the transform from a prediction list to Series and TickMarkers is a
pure function of the response — the committed chart payload and tick colours
do not depend on the prior component state, so two fetches that receive
identical upstream data produce identical (bit-identical in the embedding)
Series and TickMarkers. -/
theorem c8_pure_transform (s1 s2 : AppState) (d : NOAAResponse)
    (out : ChartData × List String) (hok : fetchOutcome d = .ok out) :
    (fetchComplete s1 (.response d)).1.chartData =
      (fetchComplete s2 (.response d)).1.chartData ∧
    (fetchComplete s1 (.response d)).1.tickColors =
      (fetchComplete s2 (.response d)).1.tickColors ∧
    (fetchComplete s1 (.response d)).1.chartData = some out.1 ∧
    (fetchComplete s1 (.response d)).1.tickColors = out.2 := by
  simp [fetchComplete, hok]

/-- A concrete successful response for witnesses. -/
def sampleResponse : NOAAResponse :=
  { error := none, predictions := some samplePreds }

/-- C8 witness: the theorem at the sample response, from two different prior
states. -/
theorem c8_pure_transform_witness :
    (fetchComplete initialState (.response sampleResponse)).1.chartData =
      (fetchComplete failedState (.response sampleResponse)).1.chartData :=
  (c8_pure_transform initialState failedState sampleResponse
    (transform samplePreds)
    (fetchOutcome_ok sampleResponse samplePreds rfl rfl (by decide))).1

/-- C9: while a fetch is in flight (`loading` set) the refresh control is not
operable — the only event that can occur is the completion of the current
fetch, so no second concurrent fetch is observable. -/
theorem c9_no_refresh_while_loading (s : AppState) (h : s.loading = true) :
    refreshEnabled s = false ∧
    (∀ s' : AppState, Step s s' → ∃ r, s' = (fetchComplete s r).1) := by
  constructor
  · simp [refreshEnabled, h]
  · intro s' hs
    cases hs with
    | refresh hr =>
      rw [refreshEnabled, h] at hr
      simp at hr
    | complete r hr => exact ⟨r, rfl⟩

/-- C9 witness: the theorem at the initial (loading) state. -/
theorem c9_no_refresh_while_loading_witness :
    refreshEnabled initialState = false :=
  (c9_no_refresh_while_loading initialState rfl).1

/-- C10: whenever a fetch commits a Ready state, the chart payload holds
exactly two datasets carrying the identical transformed series, and the
labels and tick-colour arrays both have one entry per prediction. -/
theorem c10_ready_payload (s : AppState) (d : NOAAResponse)
    (preds : List RawPrediction) (out : ChartData × List String)
    (hp : d.predictions = some preds) (hok : fetchOutcome d = .ok out) :
    (fetchComplete s (.response d)).1.chartData = some out.1 ∧
    (fetchComplete s (.response d)).1.tickColors = out.2 ∧
    out.1.datasets.length = 2 ∧
    (∀ ds ∈ out.1.datasets, ds.data = seriesOf preds) ∧
    out.1.labels.length = preds.length ∧
    out.2.length = preds.length := by
  rcases fetchOutcome_ok_elim d out hok with ⟨he, preds', hp', hne, hout⟩
  have hpp : preds' = preds := Option.some.inj (hp'.symm.trans hp)
  rw [hpp] at hout
  subst hout
  refine ⟨?_, ?_, ?_, ?_, transform_labels_length preds,
    transform_colors_length preds⟩
  · simp [fetchComplete, hok]
  · simp [fetchComplete, hok]
  · rw [transform_datasets]
    rfl
  · intro ds hds
    rw [transform_datasets] at hds
    rcases List.mem_cons.mp hds with h | h
    · rw [h]
    · rcases List.mem_cons.mp h with h2 | h2
      · rw [h2]
      · cases h2

/-- C10 witness: the theorem at the sample response. -/
theorem c10_ready_payload_witness :
    (transform samplePreds).1.datasets.length = 2 :=
  (c10_ready_payload initialState sampleResponse samplePreds
    (transform samplePreds) rfl
    (fetchOutcome_ok sampleResponse samplePreds rfl rfl (by decide))).2.2.1

/-- C7: every fetch invocation builds its request from the wall-clock value
read at that moment: the begin timestamp is `beginDateOf` of that clock —
year, then zero-padded two-digit month, day, hours and minutes in the
`YYYYMMDD HH:MM` shape (14 characters, all digits except the space and the
colon) — it changes whenever the minute changes, so it is never a reused
constant; and the station, 5-day range and product/datum/units/timezone/format
parameters are the fixed ones of line 87. -/
theorem c7_request (t : JSDate)
    (hy1 : 1000 ≤ t.fullYear) (hy2 : t.fullYear ≤ 9999)
    (hm : t.month < 12) (hd : t.date ≤ 31) (hh : t.hours < 24)
    (hmin : t.minutes < 60) :
    (buildRequest t).begin_date = beginDateOf t ∧
    (beginDateOf t).length = 14 ∧
    (toString t.fullYear).length = 4 ∧
    (padStart (toString (t.month + 1)) 2 '0').length = 2 ∧
    (padStart (toString t.date) 2 '0').length = 2 ∧
    (padStart (toString t.hours) 2 '0').length = 2 ∧
    (padStart (toString t.minutes) 2 '0').length = 2 ∧
    (∀ c ∈ (toString t.fullYear).toList ++
        (padStart (toString (t.month + 1)) 2 '0').toList ++
        (padStart (toString t.date) 2 '0').toList ++
        (padStart (toString t.hours) 2 '0').toList ++
        (padStart (toString t.minutes) 2 '0').toList, c.isDigit) ∧
    (buildRequest t).station = "9411340" ∧
    (buildRequest t).range = "5" ∧
    (buildRequest t).product = "predictions" ∧
    (buildRequest t).datum = "MLLW" ∧
    (buildRequest t).units = "english" ∧
    (buildRequest t).time_zone = "lst_ldt" ∧
    (buildRequest t).format = "json" ∧
    (buildRequest t).application = "tide-chart-app" ∧
    (∀ t2 : JSDate, t2.fullYear = t.fullYear → t2.month = t.month →
       t2.date = t.date → t2.hours = t.hours → t2.minutes < 60 →
       t2.minutes ≠ t.minutes →
       (buildRequest t2).begin_date ≠ (buildRequest t).begin_date) := by
  have hy := repr_len4 t.fullYear hy1 hy2
  have hmm := pad2_len (t.month + 1) (by omega)
  have hdd := pad2_len t.date (by omega)
  have hhh := pad2_len t.hours (by omega)
  have hmn := pad2_len t.minutes (by omega)
  refine ⟨rfl, ?_, hy, hmm, hdd, hhh, hmn, ?_, rfl, rfl, rfl, rfl, rfl, rfl,
    rfl, rfl, ?_⟩
  · simp only [beginDateOf, String.length_append, hy, hmm, hdd, hhh, hmn]
    rfl
  · intro c hc
    simp only [List.mem_append] at hc
    rcases hc with ((((hc | hc) | hc) | hc) | hc)
    · exact repr_digits t.fullYear c hc
    · exact pad2_digits (t.month + 1) (by omega) c hc
    · exact pad2_digits t.date (by omega) c hc
    · exact pad2_digits t.hours (by omega) c hc
    · exact pad2_digits t.minutes (by omega) c hc
  · intro t2 h1 h2 h3 h4 h5 h6 heq
    apply h6
    simp only [buildRequest] at heq
    rw [beginDateOf, beginDateOf, h1, h2, h3, h4] at heq
    have hdata := congrArg String.data heq
    simp only [String.data_append, List.append_assoc] at hdata
    have hmineq : (padStart (toString t2.minutes) 2 '0').data =
        (padStart (toString t.minutes) 2 '0').data :=
      List.append_cancel_left (List.append_cancel_left (List.append_cancel_left
        (List.append_cancel_left (List.append_cancel_left
          (List.append_cancel_left hdata)))))
    exact pad2_inj t2.minutes h5 t.minutes hmin (String.ext hmineq)

/-- C7 witness: the theorem at a concrete clock reading. -/
theorem c7_request_witness :
    (beginDateOf
      { fullYear := 2024, month := 5, date := 9, hours := 7, minutes := 3 }).length
      = 14 :=
  (c7_request { fullYear := 2024, month := 5, date := 9, hours := 7, minutes := 3 }
    (by norm_num) (by norm_num) (by norm_num) (by norm_num) (by norm_num)
    (by norm_num)).2.1
